import Mathlib

/-!
Verification of `medinify/sentiment/review_classifier.py` against its
natural-language specification.

The Python class `ReviewClassifier` is shallowly embedded below.  Pure data
transformations (tokenization, threshold labeling, vectorization, label
encoding) are translated directly from the source.  Calls into external
libraries (nltk / sklearn / keras fit, predict and score routines) are
out of scope per the spec (black-box fit/predict capabilities) and appear
as abstract function parameters collected in a `Backend` structure.
Python exceptions are modelled with `Except PyError`.
-/

namespace Medinify

/-- Kinds of Python exceptions the embedded code can raise, plus
`unknownFamily`, the specific configuration-error kind that the spec's
error taxonomy (§7, item 3) prescribes for a classifier family outside the
closed enum; the source never raises it. -/
inductive PyError where
  | keyError
  | valueError
  | typeError
  | indexError
  | unboundLocal
  | unknownFamily
  deriving DecidableEq

instance {ε α : Type} [DecidableEq ε] [DecidableEq α] : DecidableEq (Except ε α) := fun a b =>
  match a, b with
  | .error e₁, .error e₂ =>
    if h : e₁ = e₂ then .isTrue (by rw [h]) else .isFalse (by intro hh; cases hh; exact h rfl)
  | .error _, .ok _ => .isFalse (by intro hh; cases hh)
  | .ok _, .error _ => .isFalse (by intro hh; cases hh)
  | .ok a₁, .ok a₂ =>
    if h : a₁ = a₂ then .isTrue (by rw [h]) else .isFalse (by intro hh; cases hh; exact h rfl)

/-- A raw CSV record as produced by `csv.DictReader`: either named field may
be absent (accessing an absent field raises `KeyError`). -/
structure RawRow where
  comment? : Option String
  rating? : Option String
  deriving DecidableEq

/-- A record after the reading loop: both fields present, rating still a string. -/
structure ParsedRow where
  comment : String
  rating : String
  deriving DecidableEq

/-- A review whose rating string has been parsed by `float(...)`;
ratings are modelled as rationals. -/
structure Review where
  comment : String
  rating : ℚ
  deriving DecidableEq

/-- A labeled instance: bag-of-words token list (dict keys, first-occurrence
order, deduplicated) together with the label string used by the source. -/
abbrev Inst : Type := List String × String

/-- Dense numeric data as produced by `DictVectorizer(sparse=False)`. -/
abbrev NumMatrix : Type := List (List ℚ)

/-- `ReviewClassifier.negative_threshold`. -/
def negative_threshold : ℚ := 2

/-- `ReviewClassifier.positive_threshold`. -/
def positive_threshold : ℚ := 4

/-- Value of a list of decimal digit characters. -/
def digitsToNat (ds : List Char) : ℕ :=
  ds.foldl (fun n c => 10 * n + (c.toNat - 48)) 0

/-- Leading and trailing whitespace removed, as `float(...)` tolerates. -/
def trimChars (cs : List Char) : List Char :=
  ((cs.dropWhile Char.isWhitespace).reverse.dropWhile Char.isWhitespace).reverse

/-- Modelled from the spec: Python's `float(...)` on the rating field (the
interpreter built-in is not under src/).  The spec (§6) fixes the input
format to decimal strings, so the model accepts an optional sign, an
integer part and an optional fractional part, and returns `none` on any
other shape (Python raises `ValueError` there).  The value of
`I.F` is `(I * 10^|F| + F) / 10^|F|`. -/
def parseRat (s : String) : Option ℚ :=
  let cs := trimChars s.toList
  let signSplit : Bool × List Char :=
    match cs with
    | '-' :: rest => (true, rest)
    | '+' :: rest => (false, rest)
    | rest => (false, rest)
  let body := signSplit.2
  let intPart := body.takeWhile Char.isDigit
  let rest := body.dropWhile Char.isDigit
  let signed : ℕ → ℤ := fun n => if signSplit.1 then -(n : ℤ) else (n : ℤ)
  match rest with
  | [] => if intPart.isEmpty then none else some (mkRat (signed (digitsToNat intPart)) 1)
  | '.' :: rest2 =>
    let fracPart := rest2.takeWhile Char.isDigit
    let rest3 := rest2.dropWhile Char.isDigit
    if rest3.isEmpty && !(intPart.isEmpty && fracPart.isEmpty) then
      some (mkRat (signed (digitsToNat (intPart ++ fracPart))) (10 ^ fracPart.length))
    else none
  | _ => none

/-- A word character for `RegexpTokenizer(r'\w+')`. -/
def isWordChar (c : Char) : Bool := c.isAlphanum || c = '_'

/-- Splits a character list into maximal runs of word characters
(`RegexpTokenizer(r'\w+').tokenize`), accumulator holds the current run
reversed. -/
def tokensAux : List Char → List Char → List (List Char)
  | [], acc => if acc.isEmpty then [] else [acc.reverse]
  | c :: cs, acc =>
    if isWordChar c then tokensAux cs (c :: acc)
    else if acc.isEmpty then tokensAux cs [] else acc.reverse :: tokensAux cs []

/-- `RegexpTokenizer(r'\w+').tokenize`. -/
def wordTokens (s : String) : List String :=
  (tokensAux s.toList []).map (fun l => String.mk l)

/-- Python's `str.lower()` (character-wise lowercasing). -/
def lowerStr (s : String) : String := String.mk (s.toList.map Char.toLower)

/-- Modelled from the spec: the fixed English stopword list
(`stopwords.words('english')` is external NLTK corpus data, not under
src/).  Contraction fragments with apostrophes never survive the `\w+`
tokenizer, so only apostrophe-free entries are relevant. -/
def stop_words : List String :=
  ["i", "me", "my", "myself", "we", "our", "ours", "ourselves", "you",
   "your", "yours", "yourself", "yourselves", "he", "him", "his",
   "himself", "she", "her", "hers", "herself", "it", "its", "itself",
   "they", "them", "their", "theirs", "themselves", "what", "which",
   "who", "whom", "this", "that", "these", "those", "am", "is", "are",
   "was", "were", "be", "been", "being", "have", "has", "had", "having",
   "do", "does", "did", "doing", "a", "an", "the", "and", "but", "if",
   "or", "because", "as", "until", "while", "of", "at", "by", "for",
   "with", "about", "against", "between", "into", "through", "during",
   "before", "after", "above", "below", "to", "from", "up", "down", "in",
   "out", "on", "off", "over", "under", "again", "further", "then",
   "once", "here", "there", "when", "where", "why", "how", "all", "any",
   "both", "each", "few", "more", "most", "other", "some", "such", "no",
   "nor", "not", "only", "own", "same", "so", "than", "too", "very",
   "s", "t", "can", "will", "just", "don", "should", "now"]

/-- First-occurrence deduplication, as performed by the keys of the Python
dict comprehension `{word: True for word in ...}`. -/
def dedupFirstAux (seen : List String) : List String → List String
  | [] => []
  | x :: xs =>
    if x ∈ seen then dedupFirstAux seen xs else x :: dedupFirstAux (x :: seen) xs

/-- First-occurrence deduplication starting from no seen words. -/
def dedupFirst (l : List String) : List String := dedupFirstAux [] l

/-- The per-review feature extraction of `build_dataset`: lowercase,
tokenize on `\w+`, drop stopwords, collapse to dict keys. -/
def features (comment : String) : List String :=
  dedupFirst ((wordTokens (lowerStr comment)).filter (fun w => ¬ w ∈ stop_words))

/-- One iteration of the labeling loop in `build_dataset`: append to
`negative_comments` when `rating <= negative_threshold` and to
`positive_comments` when `rating >= positive_threshold`.  The pair is
(positive_comments, negative_comments). -/
def classifyStep (pn : List Inst × List Inst) (rev : Review) : List Inst × List Inst :=
  let f := features rev.comment
  let neg := if rev.rating ≤ negative_threshold then pn.2 ++ [(f, "neg")] else pn.2
  let pos := if positive_threshold ≤ rev.rating then pn.1 ++ [(f, "pos")] else pn.1
  (pos, neg)

/-- The labeling loop of `build_dataset` over already-parsed reviews. -/
def splitReviews (revs : List Review) : List Inst × List Inst :=
  revs.foldl classifyStep ([], [])

/-- `dataset = positive_comments + negative_comments`. -/
def datasetOf (revs : List Review) : List Inst :=
  (splitReviews revs).1 ++ (splitReviews revs).2

/-- The instances a single review contributes to the dataset. -/
def reviewInstances (rev : Review) : List Inst := datasetOf [rev]

/-- The reading loop of `build_dataset`: accessing `row['comment']` or
`row['rating']` on a record lacking the field raises `KeyError`. -/
def readRow (row : RawRow) : Except PyError ParsedRow :=
  match row.comment?, row.rating? with
  | some c, some s => .ok ⟨c, s⟩
  | _, _ => .error .keyError

/-- Reads every raw record in order, failing on the first malformed one. -/
def readRows : List RawRow → Except PyError (List ParsedRow)
  | [] => .ok []
  | r :: rs => do
    let p ← readRow r
    let ps ← readRows rs
    return p :: ps

/-- The labeling loop of `build_dataset` over parsed records, carrying the
(positive_comments, negative_comments) accumulator: `float(rating)` raises
`ValueError` on a non-numeric string, otherwise the review is classified
against the thresholds. -/
def labelLoopAux (pn : List Inst × List Inst) : List ParsedRow → Except PyError (List Inst × List Inst)
  | [] => .ok pn
  | row :: rest =>
    match parseRat row.rating with
    | none => .error .valueError
    | some r => labelLoopAux (classifyStep pn ⟨row.comment, r⟩) rest

/-- The labeling loop of `build_dataset` starting from empty accumulators. -/
def labelLoop (rows : List ParsedRow) : Except PyError (List Inst × List Inst) :=
  labelLoopAux ([], []) rows

/-- Lexicographic comparison of character lists by code point, the string
order used by `sorted` / `np.unique`. -/
def charListLt : List Char → List Char → Bool
  | [], [] => false
  | [], _ :: _ => true
  | _ :: _, [] => false
  | a :: as, b :: bs =>
    if a.toNat < b.toNat then true
    else if b.toNat < a.toNat then false
    else charListLt as bs

/-- Lexicographic string comparison by code point. -/
def strLt (a b : String) : Bool := charListLt a.toList b.toList

/-- Sorted insertion without duplicates, the building block of
`np.unique` / the sorted feature names of `DictVectorizer`. -/
def insertUnique (x : String) : List String → List String
  | [] => [x]
  | y :: ys => if x = y then y :: ys else if strLt x y then x :: y :: ys else y :: insertUnique x ys

/-- Sorted list of the distinct elements, as `np.unique` returns and as
`DictVectorizer` (with its default sorting) orders feature names. -/
def npUnique (l : List String) : List String := l.foldr insertUnique []

/-- The vocabulary fitted by `DictVectorizer.fit_transform`: sorted distinct
tokens of the whole corpus. -/
def fitVocabulary (ds : List Inst) : List String := npUnique (ds.flatMap (fun i => i.1))

/-- One dense row of `DictVectorizer.fit_transform`: presence (`True` = 1)
of each vocabulary token. -/
def vectorize (vocab : List String) (tokens : List String) : List ℚ :=
  vocab.map (fun w => if w ∈ tokens then (1 : ℚ) else 0)

/-- Index of a string in a class list (`LabelEncoder.transform` of one label). -/
def idxOf (x : String) : List String → ℕ
  | [] => 0
  | y :: ys => if y = x then 0 else idxOf x ys + 1

/-- `LabelEncoder.fit`: the sorted distinct labels. -/
def labelClasses (labels : List String) : List String := npUnique labels

/-- `LabelEncoder.fit_transform`: each label replaced by its index among the
sorted distinct labels. -/
def labelEncode (labels : List String) : List ℕ :=
  labels.map (fun l => idxOf l (labelClasses labels))

/-- The heterogeneous return of `build_dataset`: a symbolic dataset for
'nb'/'dt', a (matrix, target) pair for the numeric families. -/
inductive BuiltData where
  | symbolic (dataset : List Inst)
  | numeric (train_data : NumMatrix) (train_target : List ℕ)
  deriving DecidableEq

/-- `ReviewClassifier.build_dataset`.  Reads the records, labels them
against the thresholds, and for the numeric families vectorizes the result.
`pd.DataFrame(dataset)` on an empty dataset has zero columns, so the
subsequent assignment of the two column names raises `ValueError`. -/
def build_dataset (classifier_type : String) (rows : List RawRow) : Except PyError BuiltData := do
  let parsed ← readRows rows
  let pn ← labelLoop parsed
  let dataset := pn.1 ++ pn.2
  if classifier_type = "nb" ∨ classifier_type = "dt" then
    return .symbolic dataset
  else if dataset.isEmpty then
    .error .valueError
  else
    let vocab := fitVocabulary dataset
    return .numeric (dataset.map (fun inst => vectorize vocab inst.1)) (labelEncode (dataset.map (fun inst => inst.2)))

/-- The configuration of the keras network built in the 'nn' branch of
`create_trained_model`: hidden widths, dropout rate, epoch count and the
`class_weight` dictionary entries for encoded labels 0 and 1. -/
structure NNConfig where
  inputDim : ℕ
  hiddenLayers : List ℕ
  dropoutRate : ℚ
  epochs : ℕ
  classWeight0 : ℚ
  classWeight1 : ℚ
  deriving DecidableEq

/-- The network configuration the source hard-codes: layers [20, 30, 20]
with 0.5 dropout, 50 epochs, `class_weight={0: 3, 1: 1}`. -/
def nnConfigFor (inputDim : ℕ) : NNConfig :=
  { inputDim := inputDim, hiddenLayers := [20, 30, 20], dropoutRate := 1 / 2,
    epochs := 50, classWeight0 := 3, classWeight1 := 1 }

/-- The black-box fit / score / predict capabilities of the external
libraries, out of scope per spec §1.  `rfFit` takes `n_estimators`, the
`random_state` argument (`none` would mean unseeded), the ambient
process-level random state a fit would consume if unseeded, and the data;
`nnFit` takes the network configuration and the ambient random state. -/
structure Backend (M : Type) where
  nbTrain : List Inst → M
  dtTrain : List Inst → M
  rfFit : ℕ → Option ℕ → ℕ → NumMatrix → List ℕ → M
  nnFit : NNConfig → ℕ → NumMatrix → List ℕ → M
  symAcc : M → List Inst → ℚ
  nnEvalAcc : M → NumMatrix → List ℕ → ℚ
  rfScore : M → NumMatrix → List ℕ → ℚ
  rfPredict : M → NumMatrix → List ℕ

variable {M : Type}

/-- `ReviewClassifier.create_trained_model`.  Branches on the classifier
type string; the 'rf' branch passes `n_estimators=100, random_state=0`;
the 'nn' branch reads `len(train_data[0])` (raising `IndexError` on an
empty matrix) and fits with the hard-coded configuration.  With a type
outside the four branches no branch assigns `model`, so `return model`
raises `UnboundLocalError`.  A branch entered without its data argument
(`None`) fails in the library call with a `TypeError`. -/
def create_trained_model (B : Backend M) (ambient : ℕ) (classifier_type : String)
    (dataset : Option (List Inst)) (train_data : Option NumMatrix)
    (train_target : Option (List ℕ)) : Except PyError M :=
  if classifier_type = "nb" then
    match dataset with
    | some d => .ok (B.nbTrain d)
    | none => .error .typeError
  else if classifier_type = "dt" then
    match dataset with
    | some d => .ok (B.dtTrain d)
    | none => .error .typeError
  else if classifier_type = "rf" then
    match train_data, train_target with
    | some d, some t => .ok (B.rfFit 100 (some 0) ambient d t)
    | _, _ => .error .typeError
  else if classifier_type = "nn" then
    match train_data, train_target with
    | some d, some t =>
      match d with
      | [] => .error .indexError
      | row0 :: rest => .ok (B.nnFit (nnConfigFor row0.length) ambient (row0 :: rest) t)
    | _, _ => .error .typeError
  else
    .error .unboundLocal

/-- `ReviewClassifier.train`.  Builds the dataset and stores a trained
model for the four known classifier types; any other type matches no
branch and the method returns with no work done.  The returned value is
the new `self.model`. -/
def train (B : Backend M) (ambient : ℕ) (classifier_type : String)
    (model : Option M) (rows : List RawRow) : Except PyError (Option M) :=
  if classifier_type = "nb" ∨ classifier_type = "dt" then do
    let bd ← build_dataset classifier_type rows
    match bd with
    | .symbolic dataset => do
      let m ← create_trained_model B ambient classifier_type (some dataset) none none
      return some m
    | .numeric _ _ => .error .typeError
  else if classifier_type = "nn" then do
    let bd ← build_dataset classifier_type rows
    match bd with
    | .numeric d t => do
      let m ← create_trained_model B ambient classifier_type none (some d) (some t)
      return some m
    | .symbolic _ => .error .valueError
  else if classifier_type = "rf" then do
    let bd ← build_dataset classifier_type rows
    match bd with
    | .numeric d t => do
      let m ← create_trained_model B ambient classifier_type none (some d) (some t)
      return some m
    | .symbolic _ => .error .valueError
  else
    return model

/-- `ReviewClassifier.save_model`.  The file name is assigned only in the
'nb' and 'dt' branches; for any other type the `open(file_name, 'wb')`
call raises `UnboundLocalError`.  On success the result is the file name
written and the pickled object (`self.model`, possibly `None`). -/
def save_model (classifier_type : String) (model : Option M) :
    Except PyError (String × Option M) :=
  if classifier_type = "nb" then
    .ok ("trained_nb_model.pickle", model)
  else if classifier_type = "dt" then
    .ok ("trained_dt_model.pickle", model)
  else
    .error .unboundLocal

/-- `ReviewClassifier.load_model`.  Both branches call
`pickle.load(self.model, pickle_file)`, passing two positional arguments
to a one-argument function, which raises `TypeError`; `self.model` is
never assigned.  `stored` is the pickled model sitting in the file; the
result on the non-raising path is the (unchanged) `self.model`. -/
def load_model (classifier_type : String) (model : Option M) (stored : M) :
    Except PyError (Option M) :=
  if classifier_type = "nb" then
    .error .typeError
  else if classifier_type = "dt" then
    .error .typeError
  else
    .ok model

/-- Numpy fancy indexing `matrix[indices]` on rows. -/
def selectRows (m : NumMatrix) (idxs : List ℕ) : NumMatrix :=
  idxs.map (fun i => m.getD i [])

/-- Numpy fancy indexing `target[indices]`. -/
def selectNats (t : List ℕ) (idxs : List ℕ) : List ℕ :=
  idxs.map (fun i => t.getD i 0)

/-- `[dataset[item] for item in indices]`. -/
def selectInsts (ds : List Inst) (idxs : List ℕ) : List Inst :=
  idxs.map (fun i => ds.getD i ([], ""))

/-- The symbolic ('nb'/'dt') fold loop of `evaluate_average_accuracy`,
carrying the `model_scores` accumulator.  Each iteration gathers the
train/test partitions of the fold (a `(train, test)` index pair yielded by
`StratifiedKFold.split`), trains a fresh model, and appends
`accuracy * 100`. -/
def symFoldLoop (B : Backend M) (ambient : ℕ) (classifier_type : String)
    (dataset : List Inst) (scores : List ℚ) :
    List (List ℕ × List ℕ) → Except PyError (List ℚ)
  | [] => .ok scores
  | fold :: rest => do
    let test_data := selectInsts dataset fold.2
    let train_data := selectInsts dataset fold.1
    let model ← create_trained_model B ambient classifier_type (some train_data) none none
    symFoldLoop B ambient classifier_type dataset
      (scores ++ [B.symAcc model test_data * 100]) rest

/-- The recorded `model_scores` of the symbolic loop. -/
def modelScoresSym (B : Backend M) (ambient : ℕ) (classifier_type : String)
    (dataset : List Inst) (folds : List (List ℕ × List ℕ)) : Except PyError (List ℚ) :=
  symFoldLoop B ambient classifier_type dataset [] folds

/-- The numeric ('nn'/'rf') fold loop of `evaluate_average_accuracy`,
carrying the `model_scores` accumulator.  Each iteration trains on the
selected rows and scores the test rows ('nn' via `model.evaluate`'s
accuracy component, 'rf' via `model.score`), appending `score * 100`. -/
def numFoldLoop (B : Backend M) (ambient : ℕ) (classifier_type : String)
    (data : NumMatrix) (target : List ℕ) (scores : List ℚ) :
    List (List ℕ × List ℕ) → Except PyError (List ℚ)
  | [] => .ok scores
  | fold :: rest => do
    let model ← create_trained_model B ambient classifier_type none
      (some (selectRows data fold.1)) (some (selectNats target fold.1))
    let s := if classifier_type = "nn" then
        B.nnEvalAcc model (selectRows data fold.2) (selectNats target fold.2)
      else
        B.rfScore model (selectRows data fold.2) (selectNats target fold.2)
    numFoldLoop B ambient classifier_type data target (scores ++ [s * 100]) rest

/-- The recorded `model_scores` of the numeric loop. -/
def modelScoresNum (B : Backend M) (ambient : ℕ) (classifier_type : String)
    (data : NumMatrix) (target : List ℕ) (folds : List (List ℕ × List ℕ)) :
    Except PyError (List ℚ) :=
  numFoldLoop B ambient classifier_type data target [] folds

/-- The `model_scores` list recorded by `evaluate_average_accuracy` for the
given classifier type (empty when no loop matches the type). -/
def recordedScores (B : Backend M) (ambient : ℕ) (classifier_type : String)
    (dataset : List Inst) (data : NumMatrix) (target : List ℕ)
    (folds : List (List ℕ × List ℕ)) : Except PyError (List ℚ) :=
  if classifier_type = "nb" ∨ classifier_type = "dt" then
    modelScoresSym B ambient classifier_type dataset folds
  else if classifier_type = "nn" ∨ classifier_type = "rf" then
    modelScoresNum B ambient classifier_type data target folds
  else
    return []

/-- `np.mean` of a list of rationals. -/
def npMean (l : List ℚ) : ℚ := l.sum / l.length

/-- `ReviewClassifier.evaluate_average_accuracy` after the dataset has been
built: run the per-fold loop for the classifier type on the fold index
pairs yielded by `StratifiedKFold(n_splits=10).split`, then return
`np.mean(model_scores)`. -/
def evaluate_average_accuracy (B : Backend M) (ambient : ℕ) (classifier_type : String)
    (dataset : List Inst) (data : NumMatrix) (target : List ℕ)
    (folds : List (List ℕ × List ℕ)) : Except PyError ℚ := do
  let scores ← recordedScores B ambient classifier_type dataset data target folds
  return npMean scores

/-- A trivial backend over `Unit`, used to instantiate theorems at
concrete inputs. -/
def unitBackend : Backend Unit :=
  { nbTrain := fun _ => (), dtTrain := fun _ => (),
    rfFit := fun _ _ _ _ _ => (), nnFit := fun _ _ _ _ => (),
    symAcc := fun _ _ => 1, nnEvalAcc := fun _ _ _ => 1,
    rfScore := fun _ _ _ => 1, rfPredict := fun _ _ => [] }

/-- A backend over `ℕ` whose random-forest fit depends on the data but not
on the ambient random state, and whose predictions depend on the model;
used to instantiate theorems at concrete inputs. -/
def natBackend : Backend ℕ :=
  { nbTrain := fun _ => 0, dtTrain := fun _ => 0,
    rfFit := fun n _ _ d _ => n + d.length, nnFit := fun _ _ _ _ => 0,
    symAcc := fun _ _ => 1, nnEvalAcc := fun _ _ _ => 1,
    rfScore := fun _ _ _ => 1,
    rfPredict := fun m rows => rows.map (fun _ => m) }

/-! ### Structural lemmas about the labeling loop -/

/-- The labeling loop appends, in order, one positive instance per review
rated at or above the positive threshold and one negative instance per
review rated at or below the negative threshold. -/
theorem foldl_classifyStep (revs : List Review) (p n : List Inst) :
    revs.foldl classifyStep (p, n) =
      (p ++ (revs.filter (fun r => positive_threshold ≤ r.rating)).map
          (fun r => (features r.comment, "pos")),
       n ++ (revs.filter (fun r => r.rating ≤ negative_threshold)).map
          (fun r => (features r.comment, "neg"))) := by
  induction revs generalizing p n with
  | nil => simp
  | cons r rs ih =>
    simp only [List.foldl_cons, List.filter_cons]
    by_cases hp : positive_threshold ≤ r.rating <;>
      by_cases hn : r.rating ≤ negative_threshold <;>
        simp [classifyStep, hp, hn, ih, List.append_assoc]

/-- Claim C1: a review rated at most 2.0 yields exactly one instance
labeled negative, one rated at least 4.0 yields exactly one instance
labeled positive, one rated strictly between yields no instance, and the
returned dataset is exactly the positive instances (in review order)
followed by the negative ones. -/
theorem build_dataset_threshold_labeling (rev : Review) :
    (rev.rating ≤ 2 → reviewInstances rev = [(features rev.comment, "neg")]) ∧
    (4 ≤ rev.rating → reviewInstances rev = [(features rev.comment, "pos")]) ∧
    (2 < rev.rating ∧ rev.rating < 4 → reviewInstances rev = []) ∧
    ∀ revs : List Review, datasetOf revs =
      (revs.filter (fun r => 4 ≤ r.rating)).map (fun r => (features r.comment, "pos")) ++
      (revs.filter (fun r => r.rating ≤ 2)).map (fun r => (features r.comment, "neg")) := by
  have hthr : negative_threshold = 2 ∧ positive_threshold = 4 := ⟨rfl, rfl⟩
  refine ⟨fun h => ?_, fun h => ?_, fun h => ?_, fun revs => ?_⟩
  · have hnp : ¬ (4 : ℚ) ≤ rev.rating := by linarith
    simp [reviewInstances, datasetOf, splitReviews, classifyStep,
      negative_threshold, positive_threshold, h, hnp]
  · have hnn : ¬ rev.rating ≤ (2 : ℚ) := by linarith
    simp [reviewInstances, datasetOf, splitReviews, classifyStep,
      negative_threshold, positive_threshold, h, hnn]
  · have hnp : ¬ (4 : ℚ) ≤ rev.rating := by linarith [h.2]
    have hnn : ¬ rev.rating ≤ (2 : ℚ) := by linarith [h.1]
    simp [reviewInstances, datasetOf, splitReviews, classifyStep,
      negative_threshold, positive_threshold, hnp, hnn]
  · simp [datasetOf, splitReviews, foldl_classifyStep, hthr.1, hthr.2]

/-- Witness for C1 at the boundary ratings 2.0, 4.0 and 3.0. -/
theorem build_dataset_threshold_labeling_witness :
    reviewInstances ⟨"good", 2⟩ = [(features "good", "neg")] ∧
    reviewInstances ⟨"good", 4⟩ = [(features "good", "pos")] ∧
    reviewInstances ⟨"good", 3⟩ = [] :=
  ⟨(build_dataset_threshold_labeling ⟨"good", 2⟩).1 (by norm_num),
   (build_dataset_threshold_labeling ⟨"good", 4⟩).2.1 (by norm_num),
   (build_dataset_threshold_labeling ⟨"good", 3⟩).2.2.1 (by norm_num)⟩

/-- Parses every rating of a record list, `none` if any fails. -/
def toReviews : List ParsedRow → Option (List Review)
  | [] => some []
  | row :: rest => do
    let r ← parseRat row.rating
    let revs ← toReviews rest
    return ⟨row.comment, r⟩ :: revs

/-- When every rating parses, the labeling loop of `build_dataset` is the
pure fold of `classifyStep` over the parsed reviews. -/
theorem labelLoopAux_eq_foldl (rows : List ParsedRow) (revs : List Review)
    (h : toReviews rows = some revs) :
    ∀ init, labelLoopAux init rows = .ok (revs.foldl classifyStep init) := by
  induction rows generalizing revs with
  | nil =>
    cases h
    intro init
    rfl
  | cons row rest ih =>
    intro init
    cases hparse : parseRat row.rating with
    | none =>
      rw [show toReviews (row :: rest) = (do
        let r ← parseRat row.rating
        let revs ← toReviews rest
        return (⟨row.comment, r⟩ : Review) :: revs) from rfl, hparse] at h
      cases h
    | some r =>
      rw [show toReviews (row :: rest) = (do
        let r ← parseRat row.rating
        let revs ← toReviews rest
        return (⟨row.comment, r⟩ : Review) :: revs) from rfl, hparse] at h
      cases hrest : toReviews rest with
      | none => rw [hrest] at h; cases h
      | some revs' =>
        rw [hrest] at h
        cases h
        rw [show labelLoopAux init (row :: rest) =
          (match parseRat row.rating with
           | none => Except.error PyError.valueError
           | some v => labelLoopAux (classifyStep init ⟨row.comment, v⟩) rest) from rfl,
          hparse]
        show labelLoopAux (classifyStep init ⟨row.comment, r⟩) rest =
          .ok ((⟨row.comment, r⟩ :: revs').foldl classifyStep init)
        rw [List.foldl_cons]
        exact ih revs' hrest _

/-- For the symbolic families, `build_dataset` on fully well-formed input
returns exactly the dataset described by `datasetOf` (positives then
negatives, as built by the `classifyStep` loop). -/
theorem build_dataset_symbolic_eq (rows : List RawRow) (parsed : List ParsedRow)
    (revs : List Review) (hread : readRows rows = .ok parsed)
    (hconv : toReviews parsed = some revs) :
    build_dataset "nb" rows = .ok (.symbolic (datasetOf revs)) ∧
    build_dataset "dt" rows = .ok (.symbolic (datasetOf revs)) := by
  have hlab : labelLoop parsed = .ok (splitReviews revs) :=
    labelLoopAux_eq_foldl parsed revs hconv ([], [])
  constructor <;>
    · unfold build_dataset
      rw [hread]
      show (do
        let pn ← labelLoop parsed
        let dataset := pn.1 ++ pn.2
        _) = _
      rw [hlab]
      rfl

/-! ### Error propagation in `build_dataset` -/

/-- The reading loop either fails with `KeyError` or succeeds. -/
theorem readRows_error_shape (rows : List RawRow) :
    readRows rows = .error .keyError ∨ ∃ l, readRows rows = .ok l := by
  induction rows with
  | nil => exact Or.inr ⟨[], rfl⟩
  | cons r rs ih =>
    have hcons : readRows (r :: rs) = (do
      let p ← readRow r
      let ps ← readRows rs
      return p :: ps) := rfl
    match hr : readRow r with
    | .error e =>
      have he : e = PyError.keyError := by
        unfold readRow at hr
        rcases hc : r.comment? with _ | c <;> rcases hs : r.rating? with _ | s <;>
          rw [hc, hs] at hr <;> cases hr <;> rfl
      subst he
      rw [hcons, hr]
      exact Or.inl rfl
    | .ok p =>
      rw [hcons, hr]
      rcases ih with h | ⟨l, h⟩
      · rw [h]; exact Or.inl rfl
      · rw [h]; exact Or.inr ⟨p :: l, rfl⟩

/-- If the reading loop succeeds, every row read successfully and its parse
is in the output. -/
theorem readRows_ok_mem (rows : List RawRow) (parsed : List ParsedRow)
    (h : readRows rows = .ok parsed) (row : RawRow) (hrow : row ∈ rows) :
    ∃ p, readRow row = .ok p ∧ p ∈ parsed := by
  induction rows generalizing parsed with
  | nil => cases hrow
  | cons r rs ih =>
    rw [show readRows (r :: rs) = (do
      let p ← readRow r
      let ps ← readRows rs
      return p :: ps) from rfl] at h
    match hr : readRow r with
    | .error e => rw [hr] at h; cases h
    | .ok p =>
      rw [hr] at h
      match hrs : readRows rs with
      | .error e => rw [hrs] at h; cases h
      | .ok ps =>
        rw [hrs] at h
        cases h
        rcases List.mem_cons.1 hrow with heq | hmem
        · exact ⟨p, heq ▸ hr, List.mem_cons_self _ _⟩
        · obtain ⟨q, hq, hmemq⟩ := ih ps hrs hmem
          exact ⟨q, hq, List.mem_cons_of_mem _ hmemq⟩

/-- If some parsed row has an unparseable rating, the labeling loop fails
with `ValueError` from any accumulator state. -/
theorem labelLoop_error_of_bad (rows : List ParsedRow) (p : ParsedRow)
    (hp : p ∈ rows) (hbad : parseRat p.rating = none) (init : List Inst × List Inst) :
    labelLoopAux init rows = .error .valueError := by
  induction rows generalizing init with
  | nil => cases hp
  | cons r rs ih =>
    rcases List.mem_cons.1 hp with heq | hmem
    · subst heq
      simp [labelLoopAux, hbad]
    · match hparse : parseRat r.rating with
      | none => simp [labelLoopAux, hparse]
      | some v =>
        simp only [labelLoopAux, hparse]
        exact ih hmem _

/-- Claim C4: a record set containing a record with a missing required
field or a non-numeric rating makes `build_dataset` fail with a parsing
error (`KeyError` or `ValueError`); no partial dataset is returned. -/
theorem build_dataset_parse_error (classifier_type : String) (rows : List RawRow)
    (h : ∃ row ∈ rows, row.comment? = none ∨ row.rating? = none ∨
      ∃ s, row.rating? = some s ∧ parseRat s = none) :
    build_dataset classifier_type rows = .error .keyError ∨
    build_dataset classifier_type rows = .error .valueError := by
  obtain ⟨row, hrow, hbad⟩ := h
  rcases readRows_error_shape rows with herr | ⟨parsed, hok⟩
  · left
    unfold build_dataset
    rw [herr]
    rfl
  · right
    obtain ⟨p, hp, hmem⟩ := readRows_ok_mem rows parsed hok row hrow
    have hps : ∃ s, row.rating? = some s ∧ parseRat s = none := by
      rcases hbad with hc | hr | hs
      · exfalso; unfold readRow at hp; rw [hc] at hp; cases hp
      · exfalso
        unfold readRow at hp
        rw [hr] at hp
        rcases r : row.comment? with _ | c <;> rw [r] at hp <;> cases hp
      · exact hs
    obtain ⟨s, hs, hnone⟩ := hps
    have hprat : p.rating = s := by
      unfold readRow at hp
      rcases r : row.comment? with _ | c <;> rw [r, hs] at hp
      · cases hp
      · cases hp; rfl
    have hloop : labelLoopAux ([], []) parsed = .error .valueError :=
      labelLoop_error_of_bad parsed p hmem (hprat ▸ hnone) ([], [])
    unfold build_dataset
    rw [hok]
    show (do
      let pn ← labelLoop parsed
      let dataset := pn.1 ++ pn.2
      if classifier_type = "nb" ∨ classifier_type = "dt" then
        return BuiltData.symbolic dataset
      else if dataset.isEmpty then
        Except.error PyError.valueError
      else
        return BuiltData.numeric (dataset.map (fun inst => vectorize (fitVocabulary dataset) inst.1))
          (labelEncode (dataset.map (fun inst => inst.2)))) = Except.error PyError.valueError
    rw [show labelLoop parsed = labelLoopAux ([], []) parsed from rfl, hloop]
    rfl

/-- If every record is well-formed with a rating strictly between the
thresholds, reading succeeds and the labeling loop leaves any accumulator
unchanged. -/
theorem mid_ratings_loop (rows : List RawRow)
    (h : ∀ row ∈ rows, ∃ c s r, row = ⟨some c, some s⟩ ∧ parseRat s = some r ∧
      2 < r ∧ r < 4) :
    ∃ parsed, readRows rows = .ok parsed ∧
      ∀ init, labelLoopAux init parsed = .ok init := by
  induction rows with
  | nil => exact ⟨[], rfl, fun init => rfl⟩
  | cons row rest ih =>
    obtain ⟨c, s, r, hrow, hparse, hlo, hhi⟩ := h row (List.mem_cons_self _ _)
    obtain ⟨parsed, hok, hloop⟩ := ih (fun q hq => h q (List.mem_cons_of_mem _ hq))
    refine ⟨⟨c, s⟩ :: parsed, ?_, ?_⟩
    · have hcons : readRows (row :: rest) = (do
        let p ← readRow row
        let ps ← readRows rest
        return p :: ps) := rfl
      have hread : readRow row = .ok ⟨c, s⟩ := by rw [hrow]; rfl
      rw [hcons, hread, hok]
      rfl
    · intro init
      have hnn : ¬ ((r : ℚ) ≤ negative_threshold) := by
        rw [negative_threshold]; linarith
      have hnp : ¬ (positive_threshold ≤ (r : ℚ)) := by
        rw [positive_threshold]; linarith
      have hstep : classifyStep init ⟨c, r⟩ = init := by
        simp [classifyStep, hnn, hnp]
      show labelLoopAux init (⟨c, s⟩ :: parsed) = .ok init
      rw [show labelLoopAux init (⟨c, s⟩ :: parsed) =
        (match parseRat s with
         | none => Except.error PyError.valueError
         | some v => labelLoopAux (classifyStep init ⟨c, v⟩) parsed) from rfl]
      rw [hparse]
      show labelLoopAux (classifyStep init ⟨c, r⟩) parsed = .ok init
      rw [hstep]
      exact hloop init

/-- Counterexample to C5 as stated: a corpus whose only review is rated
3.0 (so zero instances survive filtering) makes `build_dataset` for the
symbolic family return an empty dataset successfully instead of failing
with an empty-dataset error. -/
theorem build_dataset_empty_no_error_counterexample :
    build_dataset "nb" [⟨some "meh", some "3.0"⟩] = .ok (.symbolic []) := by decide

/-- Amended C5: when zero instances survive threshold filtering, the
symbolic families ('nb'/'dt') return an empty dataset with no error, and
the numeric families ('rf'/'nn') fail only with a generic `ValueError`
(the pandas column assignment on an empty frame), not a specific
empty-dataset or empty-vocabulary error. -/
theorem build_dataset_all_excluded_behavior (rows : List RawRow)
    (h : ∀ row ∈ rows, ∃ c s r, row = ⟨some c, some s⟩ ∧ parseRat s = some r ∧
      2 < r ∧ r < 4) :
    build_dataset "nb" rows = .ok (.symbolic []) ∧
    build_dataset "dt" rows = .ok (.symbolic []) ∧
    build_dataset "rf" rows = .error .valueError ∧
    build_dataset "nn" rows = .error .valueError := by
  obtain ⟨parsed, hok, hloop⟩ := mid_ratings_loop rows h
  have hlab : labelLoop parsed = .ok ([], []) := hloop ([], [])
  refine ⟨?_, ?_, ?_, ?_⟩ <;>
    · unfold build_dataset
      rw [hok]
      show (do
        let pn ← labelLoop parsed
        let dataset := pn.1 ++ pn.2
        _) = _
      rw [hlab]
      rfl

/-- Witness for the amended C5 at the concrete one-review corpus rated 3.0. -/
theorem build_dataset_all_excluded_behavior_witness :
    build_dataset "nb" [⟨some "meh", some "3.0"⟩] = .ok (.symbolic []) ∧
    build_dataset "dt" [⟨some "meh", some "3.0"⟩] = .ok (.symbolic []) ∧
    build_dataset "rf" [⟨some "meh", some "3.0"⟩] = .error .valueError ∧
    build_dataset "nn" [⟨some "meh", some "3.0"⟩] = .error .valueError :=
  build_dataset_all_excluded_behavior [⟨some "meh", some "3.0"⟩]
    (fun row hrow => by
      have : row = ⟨some "meh", some "3.0"⟩ := List.mem_singleton.1 hrow
      exact ⟨"meh", "3.0", 3, this, by decide, by norm_num, by norm_num⟩)

/-- Witness for C4: a record missing its comment field. -/
theorem build_dataset_parse_error_witness :
    build_dataset "nb" [⟨none, some "5"⟩] = .error .keyError ∨
    build_dataset "nb" [⟨none, some "5"⟩] = .error .valueError :=
  build_dataset_parse_error "nb" [⟨none, some "5"⟩]
    ⟨⟨none, some "5"⟩, List.mem_singleton_self _, Or.inl rfl⟩

/-! ### Unknown classifier families, persistence, and the train entry point -/

/-- Counterexample to C3 as stated: for the out-of-enum family 'svm',
`create_trained_model` fails with the generic `UnboundLocalError` of
`return model` with no branch taken, which is not the specific
`UnknownFamilyError` configuration-error kind the claim requires. -/
theorem create_trained_model_unknown_family_counterexample :
    create_trained_model unitBackend 0 "svm" none none none = .error .unboundLocal ∧
    Except.error PyError.unboundLocal ≠ (Except.error PyError.unknownFamily : Except PyError Unit) := by
  refine ⟨by decide, by decide⟩

/-- Amended C3: for every classifier family outside the closed set
{'nb', 'dt', 'rf', 'nn'}, `create_trained_model` does fail at the
model-creation boundary, but with a generic `UnboundLocalError` (the
local `model` is never assigned), not with a specific unknown-family
configuration error. -/
theorem create_trained_model_unknown_family_unbound_local {M : Type} (B : Backend M)
    (ambient : ℕ) (classifier_type : String) (dataset : Option (List Inst))
    (train_data : Option NumMatrix) (train_target : Option (List ℕ))
    (h : classifier_type ≠ "nb" ∧ classifier_type ≠ "dt" ∧
      classifier_type ≠ "rf" ∧ classifier_type ≠ "nn") :
    create_trained_model B ambient classifier_type dataset train_data train_target =
      .error .unboundLocal := by
  obtain ⟨h1, h2, h3, h4⟩ := h
  simp [create_trained_model, h1, h2, h3, h4]

/-- Witness for the amended C3 at the concrete family 'svm'. -/
theorem create_trained_model_unknown_family_unbound_local_witness :
    create_trained_model unitBackend 0 "svm" (some []) none none = .error .unboundLocal :=
  create_trained_model_unknown_family_unbound_local unitBackend 0 "svm" (some []) none none
    (by decide)

/-- Claim C6 (the code defect the spec documents): `load_model` for the
symbolic families calls `pickle.load(self.model, pickle_file)`, passing
two positional arguments, which raises `TypeError` and never reattaches
the deserialized model, so the loaded model can never reproduce the saved
model's predictions. -/
theorem load_model_type_error {M : Type} (model : Option M) (stored : M) :
    load_model "nb" model stored = .error .typeError ∧
    load_model "dt" model stored = .error .typeError :=
  ⟨rfl, rfl⟩

/-- Counterexample to C7 as stated: `save_model` does not succeed for
every family in the closed enum; for 'rf' it fails with
`UnboundLocalError` because no branch assigns a file name. -/
theorem save_model_rf_counterexample :
    save_model "rf" (some (0 : ℕ)) = .error .unboundLocal := by decide

/-- Amended C7: `save_model` writes the pickled model under a fixed,
family-specific file name only for the two symbolic families
('trained_nb_model.pickle' for 'nb', 'trained_dt_model.pickle' for 'dt',
distinct names); for 'rf' and 'nn' it fails with `UnboundLocalError`. -/
theorem save_model_fixed_names_nb_dt_only {M : Type} (model : Option M) :
    save_model "nb" model = .ok ("trained_nb_model.pickle", model) ∧
    save_model "dt" model = .ok ("trained_dt_model.pickle", model) ∧
    save_model "rf" model = .error .unboundLocal ∧
    save_model "nn" model = .error .unboundLocal ∧
    "trained_nb_model.pickle" ≠ "trained_dt_model.pickle" :=
  ⟨rfl, rfl, rfl, rfl, by decide⟩

/-- Claim C10 (implicit behavior): for a classifier type outside
{'nb', 'dt', 'nn', 'rf'}, the public `train` operation completes without
raising, builds no dataset, and leaves the model slot unchanged. -/
theorem train_unknown_type_noop {M : Type} (B : Backend M) (ambient : ℕ)
    (classifier_type : String) (model : Option M) (rows : List RawRow)
    (h : classifier_type ≠ "nb" ∧ classifier_type ≠ "dt" ∧
      classifier_type ≠ "nn" ∧ classifier_type ≠ "rf") :
    train B ambient classifier_type model rows = .ok model := by
  obtain ⟨h1, h2, h3, h4⟩ := h
  simp only [train, h1, h2, h3, h4, if_neg, ite_false, or_self, or_false, false_or]
  rfl

/-- Witness for C10 at the concrete type 'svm' on a fresh instance. -/
theorem train_unknown_type_noop_witness :
    train unitBackend 0 "svm" none [⟨some "great", some "5.0"⟩] = .ok none :=
  train_unknown_type_noop unitBackend 0 "svm" none [⟨some "great", some "5.0"⟩] (by decide)

/-! ### Random-forest determinism -/

/-- Claim C8: the 'rf' branch of `create_trained_model` passes the fixed
seed `random_state=0` (and 100 trees) to the library fit, so two training
runs on identical data under different ambient random states produce
models with identical predictions on any fixed held-out sample, provided
the library fit honors its contract that a set `random_state` makes the
fit independent of ambient randomness. -/
theorem rf_two_run_determinism {M : Type} (B : Backend M)
    (hseeded : ∀ n s a a' d t, B.rfFit n (some s) a d t = B.rfFit n (some s) a' d t)
    (ambient₁ ambient₂ : ℕ) (d : NumMatrix) (t : List ℕ) (sample : NumMatrix) :
    (create_trained_model B ambient₁ "rf" none (some d) (some t)).map
        (fun m => B.rfPredict m sample) =
    (create_trained_model B ambient₂ "rf" none (some d) (some t)).map
        (fun m => B.rfPredict m sample) := by
  show Except.ok (B.rfPredict (B.rfFit 100 (some 0) ambient₁ d t) sample) =
    Except.ok (B.rfPredict (B.rfFit 100 (some 0) ambient₂ d t) sample)
  rw [hseeded 100 0 ambient₁ ambient₂ d t]

/-- Witness for C8 with a concrete seed-respecting backend and ambient
states 3 and 17. -/
theorem rf_two_run_determinism_witness :
    (create_trained_model natBackend 3 "rf" none (some [[1], [2]]) (some [0, 1])).map
        (fun m => natBackend.rfPredict m [[5]]) =
    (create_trained_model natBackend 17 "rf" none (some [[1], [2]]) (some [0, 1])).map
        (fun m => natBackend.rfPredict m [[5]]) :=
  rf_two_run_determinism natBackend (fun _ _ _ _ _ _ => rfl) 3 17 [[1], [2]] [0, 1] [[5]]

/-! ### Label encoding and network configuration -/

/-- On a corpus whose labels all lie in {'neg', 'pos'}, `np.unique` is the
sorted sublist of the labels that occur. -/
theorem npUnique_binary (labels : List String)
    (hsub : ∀ l ∈ labels, l = "neg" ∨ l = "pos") :
    npUnique labels =
      (if "neg" ∈ labels then ["neg"] else []) ++ (if "pos" ∈ labels then ["pos"] else []) := by
  have hlt : strLt "neg" "pos" = true := by decide
  have hlt2 : strLt "pos" "neg" = false := by decide
  induction labels with
  | nil => simp [npUnique]
  | cons x xs ih =>
    have hx := hsub x (List.mem_cons_self _ _)
    have ihx := ih (fun l hl => hsub l (List.mem_cons_of_mem _ hl))
    have hstep : npUnique (x :: xs) = insertUnique x (npUnique xs) := rfl
    rcases hx with hx | hx <;> subst hx <;> rw [hstep, ihx] <;>
      by_cases hn : "neg" ∈ xs <;> by_cases hp : "pos" ∈ xs <;>
        simp [hn, hp, insertUnique, hlt, hlt2, List.mem_cons]

/-- Encoding against the class list ['neg', 'pos'] sends 'neg' to 0 and
'pos' to 1. -/
theorem map_idx_binary (labels : List String)
    (hsub : ∀ l ∈ labels, l = "neg" ∨ l = "pos") :
    labels.map (fun l => idxOf l ["neg", "pos"]) =
      labels.map (fun l => if l = "neg" then (0 : ℕ) else 1) := by
  induction labels with
  | nil => rfl
  | cons x xs ih =>
    have hx := hsub x (List.mem_cons_self _ _)
    have ihx := ih (fun l hl => hsub l (List.mem_cons_of_mem _ hl))
    rcases hx with hx | hx <;> subst hx <;>
      simp only [List.map_cons, ihx, List.cons.injEq, and_true] <;> decide

/-- Counterexample to C9 as stated: an all-positive corpus makes
`build_dataset` encode the positive label as 0, not 1 (the
`LabelEncoder` indexes the sorted classes that actually occur). -/
theorem label_encoding_counterexample :
    build_dataset "rf" [⟨some "great", some "5.0"⟩] = .ok (.numeric [[1]] [0]) ∧
    ([0] : List ℕ) ≠ [1] :=
  ⟨by decide, by decide⟩

/-- Amended C9: whenever both classes occur in the dataset, the label
encoding deterministically maps 'neg' to 0 and 'pos' to 1 (alphabetical
class order); and the NeuralNet branch trains for a fixed 50 epochs with
class weight 3 on encoded label 0 and weight 1 on encoded label 1. -/
theorem label_encoding_and_nn_weights (labels : List String) (inputDim : ℕ)
    (hsub : ∀ l ∈ labels, l = "neg" ∨ l = "pos")
    (hneg : "neg" ∈ labels) (hpos : "pos" ∈ labels) :
    labelEncode labels = labels.map (fun l => if l = "neg" then (0 : ℕ) else 1) ∧
    (nnConfigFor inputDim).epochs = 50 ∧
    (nnConfigFor inputDim).classWeight0 = 3 ∧
    (nnConfigFor inputDim).classWeight1 = 1 := by
  refine ⟨?_, rfl, rfl, rfl⟩
  unfold labelEncode labelClasses
  rw [npUnique_binary labels hsub, if_pos hneg, if_pos hpos]
  exact map_idx_binary labels hsub

/-- Witness for the amended C9 on the two-label list ['pos', 'neg']. -/
theorem label_encoding_and_nn_weights_witness :
    labelEncode ["pos", "neg"] =
      (["pos", "neg"]).map (fun l => if l = "neg" then (0 : ℕ) else 1) ∧
    (nnConfigFor 7).epochs = 50 ∧
    (nnConfigFor 7).classWeight0 = 3 ∧
    (nnConfigFor 7).classWeight1 = 1 :=
  label_encoding_and_nn_weights ["pos", "neg"] 7 (by decide) (by decide) (by decide)

/-! ### Cross-validation aggregation -/

/-- Each successful iteration of the symbolic fold loop appends exactly one
score. -/
theorem symFoldLoop_ok_length {M : Type} (B : Backend M) (ambient : ℕ)
    (classifier_type : String) (dataset : List Inst) :
    ∀ (folds : List (List ℕ × List ℕ)) (scores out : List ℚ),
      symFoldLoop B ambient classifier_type dataset scores folds = .ok out →
      out.length = scores.length + folds.length := by
  intro folds
  induction folds with
  | nil =>
    intro scores out h
    cases h
    simp
  | cons fold rest ih =>
    intro scores out h
    replace h : Except.bind
        (create_trained_model B ambient classifier_type
          (some (selectInsts dataset fold.1)) none none)
        (fun model => symFoldLoop B ambient classifier_type dataset
          (scores ++ [B.symAcc model (selectInsts dataset fold.2) * 100]) rest) =
        .ok out := h
    cases hm : create_trained_model B ambient classifier_type
        (some (selectInsts dataset fold.1)) none none with
    | error e => rw [hm] at h; cases h
    | ok m =>
      rw [hm] at h
      replace h : symFoldLoop B ambient classifier_type dataset
          (scores ++ [B.symAcc m (selectInsts dataset fold.2) * 100]) rest = .ok out := h
      have := ih _ out h
      simp [List.length_append] at this
      simp [this, List.length_cons]
      omega

/-- Each successful iteration of the numeric fold loop appends exactly one
score. -/
theorem numFoldLoop_ok_length {M : Type} (B : Backend M) (ambient : ℕ)
    (classifier_type : String) (data : NumMatrix) (target : List ℕ) :
    ∀ (folds : List (List ℕ × List ℕ)) (scores out : List ℚ),
      numFoldLoop B ambient classifier_type data target scores folds = .ok out →
      out.length = scores.length + folds.length := by
  intro folds
  induction folds with
  | nil =>
    intro scores out h
    cases h
    simp
  | cons fold rest ih =>
    intro scores out h
    replace h : Except.bind
        (create_trained_model B ambient classifier_type none
          (some (selectRows data fold.1)) (some (selectNats target fold.1)))
        (fun model => numFoldLoop B ambient classifier_type data target
          (scores ++ [(if classifier_type = "nn" then
              B.nnEvalAcc model (selectRows data fold.2) (selectNats target fold.2)
            else
              B.rfScore model (selectRows data fold.2) (selectNats target fold.2)) * 100])
          rest) = .ok out := h
    cases hm : create_trained_model B ambient classifier_type none
        (some (selectRows data fold.1)) (some (selectNats target fold.1)) with
    | error e => rw [hm] at h; cases h
    | ok m =>
      rw [hm] at h
      replace h : numFoldLoop B ambient classifier_type data target
          (scores ++ [(if classifier_type = "nn" then
              B.nnEvalAcc m (selectRows data fold.2) (selectNats target fold.2)
            else
              B.rfScore m (selectRows data fold.2) (selectNats target fold.2)) * 100])
          rest = .ok out := h
      have := ih _ out h
      simp [List.length_append] at this
      simp [this, List.length_cons]
      omega

/-- Claim C2: whenever `evaluate_average_accuracy` completes over the ten
folds yielded by the splitter, it records exactly ten per-fold accuracy
scores and returns their arithmetic mean (`np.mean(model_scores)`). -/
theorem average_accuracy_is_mean_of_folds {M : Type} (B : Backend M) (ambient : ℕ)
    (classifier_type : String) (dataset : List Inst) (data : NumMatrix) (target : List ℕ)
    (folds : List (List ℕ × List ℕ)) (scores : List ℚ)
    (hct : classifier_type = "nb" ∨ classifier_type = "dt" ∨
      classifier_type = "nn" ∨ classifier_type = "rf")
    (hfolds : folds.length = 10)
    (hscores : recordedScores B ambient classifier_type dataset data target folds = .ok scores) :
    scores.length = 10 ∧
    evaluate_average_accuracy B ambient classifier_type dataset data target folds =
      .ok (scores.sum / 10) := by
  have hlen : scores.length = 10 := by
    rcases hct with h | h | h | h <;> subst h <;>
      simp only [recordedScores, reduceIte] at hscores
    · have := symFoldLoop_ok_length B ambient "nb" dataset folds [] scores hscores
      simpa [hfolds] using this
    · have := symFoldLoop_ok_length B ambient "dt" dataset folds [] scores hscores
      simpa [hfolds] using this
    · have := numFoldLoop_ok_length B ambient "nn" data target folds [] scores hscores
      simpa [hfolds] using this
    · have := numFoldLoop_ok_length B ambient "rf" data target folds [] scores hscores
      simpa [hfolds] using this
  refine ⟨hlen, ?_⟩
  unfold evaluate_average_accuracy
  rw [hscores]
  have : npMean scores = scores.sum / 10 := by
    unfold npMean
    rw [hlen]
    norm_num
  rw [show (do
      let scores ← (Except.ok scores : Except PyError (List ℚ))
      return npMean scores) = Except.ok (npMean scores) from rfl, this]

/-- Witness for C2 with a trivial backend, the 'nb' family and ten empty
folds. -/
theorem average_accuracy_is_mean_of_folds_witness :
    (List.replicate 10 ((1 : ℚ) * 100)).length = 10 ∧
    evaluate_average_accuracy unitBackend 0 "nb" [] [] [] (List.replicate 10 ([], [])) =
      .ok ((List.replicate 10 ((1 : ℚ) * 100)).sum / 10) :=
  average_accuracy_is_mean_of_folds unitBackend 0 "nb" [] [] []
    (List.replicate 10 ([], [])) (List.replicate 10 ((1 : ℚ) * 100))
    (Or.inl rfl) (by decide) rfl

end Medinify
